import Mathlib

/-!
Verification of the hki-esphome-humidifier adapter.

Shallow embedding of `custom_components/hki_esphome_humidifier/`:
`const.py` (constants and companion-role tables), `humidifier.py`
(the `HkiEsphomeHumidifier` entity: construction, sync from the wrapped
climate entity, companion-sensor sync, restore-on-restart, commands)
and `select.py` (the fan-mode mirror entity's setup path and its
one-shot creation listener).

Host-platform inputs (entity states read from the state registry, the
restored last state, bus events) are passed explicitly as arguments.
Python dynamic values found in attribute dictionaries are modelled by
`PyVal`; since the result of the host/stdlib `float()` parse of a string
is external behaviour, a string value carries the outcome of that parse
as data.  Numbers are exact rationals.
-/

namespace Hki

/-- A Python value stored in an attribute dict: a number, a string
(together with the result of Python `float()` applied to it, `none`
meaning the parse raises `ValueError`), or any other object (for which
`float()` raises `TypeError`). -/
inductive PyVal where
  | pnum : Rat → PyVal
  | pstr : String → Option Rat → PyVal
  | pother : PyVal
deriving DecidableEq

/-- Python `float(raw)` wrapped in `try/except (ValueError, TypeError)`:
`some` is a successful conversion, `none` the caught exception. -/
def pyFloat? : PyVal → Option Rat
  | .pnum q => some q
  | .pstr _ r => r
  | .pother => none

/-- Python `int(·)` applied to a float: truncation toward zero. -/
def pyTrunc (q : Rat) : Int := q.num.tdiv q.den

/-- The attribute dictionary of a climate-style entity state.  Fields the
adapter reads: `temperature`, `current_temperature`, `preset_mode`,
`fan_modes`, `fan_mode`.  The remaining fields are attributes a source
entity may advertise (its live mode list and humidity range) which the
spec mentions; they are part of the state even though the code never
reads them. -/
structure Attrs where
  temperature : Option PyVal := none
  current_temperature : Option PyVal := none
  preset_mode : Option String := none
  preset_modes : Option (List String) := none
  humidity : Option PyVal := none
  current_humidity : Option PyVal := none
  min_humidity : Option PyVal := none
  max_humidity : Option PyVal := none
  fan_modes : Option (List String) := none
  fan_mode : Option String := none
deriving DecidableEq

/-- A state object from the host's state registry: the state string and
the attribute dict.  `stateFloat` carries the external result of Python
`float(state)` (used only for companion sensor states). -/
structure EntityState where
  state : String
  stateFloat : Option Rat := none
  attributes : Attrs := {}
deriving DecidableEq

-- Constants from `const.py` and homeassistant sentinels.

def STATE_OFF : String := "off"
def STATE_ON : String := "on"
def STATE_UNKNOWN : String := "unknown"
def STATE_UNAVAILABLE : String := "unavailable"
def DEFAULT_MIN_HUMIDITY : Int := 30
def DEFAULT_MAX_HUMIDITY : Int := 80
def DEFAULT_ON_HVAC_MODE : String := "dry"

/-- The eleven optional companion-entity configuration keys of
`const.py`. -/
inductive CompanionKey where
  | current_humidity_entity
  | tank_level_entity
  | pm25_entity
  | error_entity
  | bucket_full_entity
  | clean_filter_entity
  | defrost_entity
  | ionizer_entity
  | pump_entity
  | sleep_entity
  | beep_entity
deriving DecidableEq

def COMPANION_SENSOR_KEYS : List CompanionKey :=
  [.current_humidity_entity, .tank_level_entity, .pm25_entity, .error_entity]

def COMPANION_BINARY_SENSOR_KEYS : List CompanionKey :=
  [.bucket_full_entity, .clean_filter_entity, .defrost_entity]

def COMPANION_SWITCH_KEYS : List CompanionKey :=
  [.ionizer_entity, .pump_entity, .sleep_entity, .beep_entity]

def ALL_COMPANION_KEYS : List CompanionKey :=
  COMPANION_SENSOR_KEYS ++ COMPANION_BINARY_SENSOR_KEYS ++ COMPANION_SWITCH_KEYS

/-- The `COMPANION_ATTR_MAP` dict of `const.py` as a lookup (`dict.get`):
note the source dict has no entry for `current_humidity_entity`. -/
def COMPANION_ATTR_MAP : CompanionKey → Option String
  | .bucket_full_entity => some "bucket_full"
  | .clean_filter_entity => some "clean_filter"
  | .defrost_entity => some "defrost"
  | .tank_level_entity => some "tank_level"
  | .pm25_entity => some "pm25"
  | .error_entity => some "error_code"
  | .ionizer_entity => some "ionizer"
  | .pump_entity => some "pump"
  | .sleep_entity => some "sleep_mode"
  | .beep_entity => some "beep"
  | .current_humidity_entity => none

/-- A cached companion value (`self._companion_values` entries):
bool for binary-sensor/switch roles, float for numeric sensor roles,
raw string when the numeric parse fails. -/
inductive CompVal where
  | bval : Bool → CompVal
  | fval : Rat → CompVal
  | sval : String → CompVal
deriving DecidableEq

/-- Python dict assignment `d[k] = v` on an insertion-ordered dict. -/
def dictSet : List (String × CompVal) → String → CompVal → List (String × CompVal)
  | [], k, v => [(k, v)]
  | (k', v') :: rest, k, v =>
      if k' = k then (k, v) :: rest else (k', v') :: dictSet rest k v

/-- The configuration mapping handed to `HkiEsphomeHumidifier.__init__`
(merged `entry.data`/`entry.options` or validated YAML).  `none` is an
absent key. -/
structure Config where
  climate_entity : String
  name : Option String := none
  on_hvac_mode : Option String := none
  min_humidity : Option Int := none
  max_humidity : Option Int := none
  modes : Option (List String) := none
  companion : CompanionKey → Option String := fun _ => none

/-- The mutable attribute record of one `HkiEsphomeHumidifier` instance. -/
structure Adapter where
  climate_entity_id : String
  on_hvac_mode : String
  name : String
  available_modes : Option (List String)
  modes_feature : Bool
  min_humidity : Int
  max_humidity : Int
  companion : CompanionKey → Option String
  is_on : Bool
  target_humidity : Option Int
  current_humidity : Option Rat
  mode : Option String
  available : Bool
  companion_values : List (String × CompVal)

/-- Python truthiness of `self._attr_available_modes`
(an optional list: `None` and `[]` are falsy). -/
def pyTruthyList : Option (List String) → Bool
  | some l => l ≠ []
  | none => false

/-- Python truthiness of an optional entity-id string
(`None` and `""` are falsy). -/
def pyTruthyStr : Option String → Bool
  | some s => s ≠ ""
  | none => false

/-- Constructor `HkiEsphomeHumidifier.__init__`.  `config.get(CONF_MODES) or []`
collapses an absent or `None` list to `[]`; a non-empty list enables
mode support, otherwise `available_modes` stays `None` and the MODES
feature flag is off.  The companion dict is built with
`config.get(key) or None`, collapsing empty strings to `None`. -/
def initAdapter (config : Config) : Adapter :=
  let modes : List String := config.modes.getD []
  { climate_entity_id := config.climate_entity
    on_hvac_mode := config.on_hvac_mode.getD DEFAULT_ON_HVAC_MODE
    name := config.name.getD "HKI Dehumidifier"
    available_modes := if modes ≠ [] then some modes else none
    modes_feature := modes ≠ []
    min_humidity := config.min_humidity.getD DEFAULT_MIN_HUMIDITY
    max_humidity := config.max_humidity.getD DEFAULT_MAX_HUMIDITY
    companion := fun key =>
      match config.companion key with
      | some s => if s = "" then none else some s
      | none => none
    is_on := false
    target_humidity := none
    current_humidity := none
    mode := none
    available := false
    companion_values := [] }

/-- The "Target humidity from climate target_temperature" block of
`_sync_from_climate`: `int(float(raw))` under
`try/except (ValueError, TypeError)`; a missing attribute or a caught
exception leaves the stored value. -/
def syncTarget (s : EntityState) (a : Adapter) : Adapter :=
  match s.attributes.temperature with
  | some raw =>
    match pyFloat? raw with
    | some q => { a with target_humidity := some (pyTrunc q) }
    | none => a
  | none => a

/-- The "Current humidity" block of `_sync_from_climate`: the climate
fallback attribute is used only when no current-humidity companion
sensor is configured. -/
def syncCurrentFallback (s : EntityState) (a : Adapter) : Adapter :=
  if ¬ pyTruthyStr (a.companion .current_humidity_entity) then
    match s.attributes.current_temperature with
    | some rawCur =>
      match pyFloat? rawCur with
      | some q => { a with current_humidity := some q }
      | none => a
    | none => a
  else a

/-- The "Mode from preset_mode" block of `_sync_from_climate`: only when
`self._attr_available_modes` is truthy, and only a preset that is a
member of that list is stored. -/
def syncMode (s : EntityState) (a : Adapter) : Adapter :=
  if pyTruthyList a.available_modes then
    match s.attributes.preset_mode, a.available_modes with
    | some preset, some modes =>
      if preset ∈ modes then { a with mode := some preset } else a
    | _, _ => a
  else a

/-- Method `HkiEsphomeHumidifier._sync_from_climate`.  `state` is the result of
`hass.states.get(self._climate_entity_id)`; the three attribute blocks
run in source order on the record already marked available and on/off. -/
def syncFromClimate (state : Option EntityState) (a : Adapter) : Adapter :=
  match state with
  | none => { a with available := false }
  | some s =>
    if s.state = STATE_UNKNOWN ∨ s.state = STATE_UNAVAILABLE then
      { a with available := false }
    else
      syncMode s (syncCurrentFallback s (syncTarget s
        { a with available := true, is_on := s.state != STATE_OFF }))

/-- The loop body of `HkiEsphomeHumidifier._sync_companion`: iterate the
companion dict's keys in insertion order; `continue` on an id mismatch or
a missing `COMPANION_ATTR_MAP` entry, otherwise handle the role and
`break`. -/
def syncCompanionAux (entity_id : String) (s : EntityState) :
    List CompanionKey → Adapter → Adapter
  | [], a => a
  | key :: rest, a =>
    if a.companion key ≠ some entity_id then syncCompanionAux entity_id s rest a
    else
      match COMPANION_ATTR_MAP key with
      | none => syncCompanionAux entity_id s rest a
      | some attrName =>
        if key ∈ COMPANION_BINARY_SENSOR_KEYS then
          -- Binary sensors: store as bool
          { a with companion_values :=
              dictSet a.companion_values attrName (.bval (s.state == STATE_ON)) }
        else if key ∈ COMPANION_SENSOR_KEYS then
          -- Numeric sensors: store as float (or raw string for error codes)
          if key = .current_humidity_entity then
            match s.stateFloat with
            | some q => { a with current_humidity := some q }
            | none => a  -- parse failure: warning logged, value retained
          else
            match s.stateFloat with
            | some q =>
              { a with companion_values :=
                  dictSet a.companion_values attrName (.fval q) }
            | none =>
              -- For error codes / text values keep as-is
              { a with companion_values :=
                  dictSet a.companion_values attrName (.sval s.state) }
        else if key ∈ COMPANION_SWITCH_KEYS then
          -- Switches: store as bool
          { a with companion_values :=
              dictSet a.companion_values attrName (.bval (s.state == STATE_ON)) }
        else a

/-- Method `HkiEsphomeHumidifier._sync_companion`. -/
def syncCompanion (entity_id : String) (s : EntityState) (a : Adapter) : Adapter :=
  if s.state = STATE_UNKNOWN ∨ s.state = STATE_UNAVAILABLE then a
  else syncCompanionAux entity_id s ALL_COMPANION_KEYS a

/-- The loop body of `HkiEsphomeHumidifier._sync_all_companions`:
`continue` on an unconfigured (`None`/empty) id or a missing registry
state, else sync that one companion. -/
def companionStep (states : String → Option EntityState) (acc : Adapter)
    (key : CompanionKey) : Adapter :=
  match acc.companion key with
  | none => acc
  | some eid =>
    if eid = "" then acc
    else
      match states eid with
      | none => acc
      | some s => syncCompanion eid s acc

/-- Method `HkiEsphomeHumidifier._sync_all_companions`.  `states` is the host's
state registry (`hass.states.get`). -/
def syncAllCompanions (states : String → Option EntityState) (a : Adapter) : Adapter :=
  ALL_COMPANION_KEYS.foldl (companionStep states) a

/-- The state-mutating part of `HkiEsphomeHumidifier.async_added_to_hass`:
restore the previous on/off from the host-provided last state (when
present and not unknown/unavailable), then sync from the climate entity
and from every companion entity.  `last_state` is the state string of
`await self.async_get_last_state()` (`none` when no history exists). -/
def addedToHass (last_state : Option String) (climate : Option EntityState)
    (states : String → Option EntityState) (a : Adapter) : Adapter :=
  let a1 :=
    match last_state with
    | some ls =>
      if ls ≠ STATE_UNKNOWN ∧ ls ≠ STATE_UNAVAILABLE then
        { a with is_on := ls != STATE_OFF }
      else a
    | none => a
  syncAllCompanions states (syncFromClimate climate a1)

/-- One blocking host service call (`hass.services.async_call`). -/
structure ServiceCall where
  domain : String
  service : String
  entity_id : String
  data : String
deriving DecidableEq

/-- Command `HkiEsphomeHumidifier.async_set_mode`: `none` is the local rejection
(error logged, no call made), `some c` the single service call issued. -/
def setMode (a : Adapter) (mode : String) : Option ServiceCall :=
  if pyTruthyList a.available_modes ∧ mode ∉ a.available_modes.getD [] then none
  else some { domain := "climate", service := "set_preset_mode",
              entity_id := a.climate_entity_id, data := mode }

/-- Command `HkiEsphomeHumidifier.async_turn_on`. -/
def turnOn (a : Adapter) : ServiceCall :=
  { domain := "climate", service := "set_hvac_mode",
    entity_id := a.climate_entity_id, data := a.on_hvac_mode }

/-- Command `HkiEsphomeHumidifier.async_turn_off`. -/
def turnOff (a : Adapter) : ServiceCall :=
  { domain := "climate", service := "set_hvac_mode",
    entity_id := a.climate_entity_id, data := STATE_OFF }

-- ── select.py: the fan-mode mirror entity's setup path ─────────────────

/-- The fan-mode list computed at the top of `select.async_setup_entry`:
empty when the climate state is missing or unknown/unavailable, else
`state.attributes.get("fan_modes") or []`. -/
def fanModesAtSetup (st : Option EntityState) : List String :=
  match st with
  | some s =>
    if s.state = STATE_UNKNOWN ∨ s.state = STATE_UNAVAILABLE then []
    else s.attributes.fan_modes.getD []
  | none => []

/-- The setup decision of `select.async_setup_entry`: either the mirror
entity is created immediately (with its option list) and no listener is
registered, or no entity is created and the one-shot listener is
registered. -/
def selectSetup (st : Option EntityState) : Option (List String) × Bool :=
  let fan_modes := fanModesAtSetup st
  if fan_modes ≠ [] then (some fan_modes, false) else (none, true)

/-- A `state_changed` bus event as seen by the registered lambda. -/
structure BusEvent where
  entity_id : Option String
  new_state : Option EntityState
deriving DecidableEq

/-- Whether the listener subscription is still active and which mirror
entities it has created so far (each entry is the created entity's
fan-mode option list, in creation order). -/
structure ListenerState where
  subscribed : Bool
  created : List (List String)
deriving DecidableEq

/-- Callback `_on_climate_first_state` of `select.async_setup_entry`: skip a
missing or unknown/unavailable state; on non-empty fan modes create the
mirror entity and cancel the subscription. -/
def onClimateFirstState (e : BusEvent) (ls : ListenerState) : ListenerState :=
  match e.new_state with
  | none => ls
  | some s =>
    if s.state = STATE_UNKNOWN ∨ s.state = STATE_UNAVAILABLE then ls
    else
      let modes := s.attributes.fan_modes.getD []
      if modes ≠ [] then { subscribed := false, created := ls.created ++ [modes] }
      else ls

/-- One delivered `state_changed` event: the outer lambda filters on the
climate entity id; a cancelled subscription receives nothing. -/
def stepListener (climate_id : String) (ls : ListenerState) (e : BusEvent) :
    ListenerState :=
  if ls.subscribed = false then ls
  else if e.entity_id = some climate_id then onClimateFirstState e ls
  else ls

/-- The listener registered by `select.async_setup_entry`, run over a
sequence of bus events from its initial (subscribed, nothing created)
state. -/
def runListener (climate_id : String) (events : List BusEvent) : ListenerState :=
  events.foldl (stepListener climate_id) { subscribed := true, created := [] }

/-- An event at which `_on_climate_first_state` creates the mirror
entity: for the climate entity, with a valid state advertising a
non-empty fan-mode list. -/
def qualifying (climate_id : String) (e : BusEvent) : Bool :=
  e.entity_id = some climate_id &&
    match e.new_state with
    | none => false
    | some s =>
      !(s.state == STATE_UNKNOWN || s.state == STATE_UNAVAILABLE) &&
        s.attributes.fan_modes.getD [] != []

/-- The fan-mode list carried by a bus event's new state. -/
def eventModes (e : BusEvent) : List String :=
  match e.new_state with
  | some s => s.attributes.fan_modes.getD []
  | none => []

/-- Modelled from the spec (refinement reference, not from the code):
"the effective mode list is either the explicit allow-list (if
non-empty) or the source entity's live advertised list". -/
def specEffectiveModes (explicit : Option (List String)) (live : List String) :
    List String :=
  match explicit with
  | some ms => if ms ≠ [] then ms else live
  | none => live

-- ── Concrete scenario inputs ───────────────────────────────────────────

/-- Configuration with an explicit mode list containing "auto" and no
companion sensors. -/
def c1Config : Config :=
  { climate_entity := "climate.dehum", modes := some ["auto", "dry"] }

/-- The source state exactly as the claim's scenario describes it:
state "dry" with attributes `humidity=45`, `current_humidity=55`,
`preset_modes=["auto","dry"]`, `preset_mode="auto"`. -/
def c1ClaimState : EntityState :=
  { state := "dry",
    attributes := { humidity := some (.pnum 45), current_humidity := some (.pnum 55),
                    preset_modes := some ["auto", "dry"], preset_mode := some "auto" } }

/-- The same scenario on the attributes this code actually designates:
`temperature=45`, `current_temperature=55`. -/
def c1AmendedState : EntityState :=
  { state := "dry",
    attributes := { temperature := some (.pnum 45),
                    current_temperature := some (.pnum 55),
                    preset_modes := some ["auto", "dry"], preset_mode := some "auto" } }

/-- Configuration with no explicit mode list. -/
def c2Config : Config := { climate_entity := "climate.dehum" }

/-- A valid source state advertising a live mode list `["auto"]` with
active preset "auto". -/
def c2State : EntityState :=
  { state := "dry",
    attributes := { preset_modes := some ["auto"], preset_mode := some "auto" } }

/-- Configuration without explicit min/max humidity. -/
def c3Config : Config := { climate_entity := "climate.dehum" }

/-- A valid source state advertising a live humidity range 20..70. -/
def c3State : EntityState :=
  { state := "dry",
    attributes := { min_humidity := some (.pnum 20), max_humidity := some (.pnum 70) } }

/-- Configuration with a current-humidity companion sensor bound to
`sensor.cur`. -/
def c6Config : Config :=
  { climate_entity := "climate.dehum",
    companion := fun k => if k = .current_humidity_entity then some "sensor.cur" else none }

/-- The companion sensor's state: the string "61", which Python
`float()` parses as 61. -/
def c6SensorState : EntityState := { state := "61", stateFloat := some 61 }

/-- A valid climate state carrying a measured `current_temperature`. -/
def c6ClimateState : EntityState :=
  { state := "dry", attributes := { current_temperature := some (.pnum 40) } }

/-- A bus event delivering the source entity's first valid state, which
advertises no fan modes. -/
def c10Event : BusEvent :=
  { entity_id := some "climate.dehum", new_state := some { state := "dry" } }

-- ── Frame lemmas: which fields each sync block can touch ───────────────

/-- The block `syncTarget` writes only `target_humidity`. -/
lemma syncTarget_eq (s : EntityState) (a : Adapter) :
    syncTarget s a = { a with target_humidity := (syncTarget s a).target_humidity } := by
  unfold syncTarget
  repeat' split
  all_goals rfl

/-- The block `syncCurrentFallback` writes only `current_humidity`. -/
lemma syncCurrentFallback_eq (s : EntityState) (a : Adapter) :
    syncCurrentFallback s a =
      { a with current_humidity := (syncCurrentFallback s a).current_humidity } := by
  unfold syncCurrentFallback
  repeat' split
  all_goals rfl

/-- The block `syncMode` writes only `mode`. -/
lemma syncMode_eq (s : EntityState) (a : Adapter) :
    syncMode s a = { a with mode := (syncMode s a).mode } := by
  unfold syncMode
  repeat' split
  all_goals rfl

/-- The companion loop writes only `current_humidity` and
`companion_values`. -/
lemma syncCompanionAux_eq (eid : String) (s : EntityState) (l : List CompanionKey)
    (a : Adapter) :
    syncCompanionAux eid s l a =
      { a with current_humidity := (syncCompanionAux eid s l a).current_humidity,
               companion_values := (syncCompanionAux eid s l a).companion_values } := by
  induction l with
  | nil => rfl
  | cons k rest ih =>
    unfold syncCompanionAux
    repeat' split
    all_goals first
      | exact ih
      | rfl

/-- The function `syncCompanion` writes only `current_humidity` and
`companion_values`. -/
lemma syncCompanion_eq (eid : String) (s : EntityState) (a : Adapter) :
    syncCompanion eid s a =
      { a with current_humidity := (syncCompanion eid s a).current_humidity,
               companion_values := (syncCompanion eid s a).companion_values } := by
  unfold syncCompanion
  split
  · rfl
  · exact syncCompanionAux_eq ..

/-- One `_sync_all_companions` iteration writes only `current_humidity`
and `companion_values`. -/
lemma companionStep_eq (states : String → Option EntityState) (a : Adapter)
    (key : CompanionKey) :
    companionStep states a key =
      { a with current_humidity := (companionStep states a key).current_humidity,
               companion_values := (companionStep states a key).companion_values } := by
  unfold companionStep
  repeat' split
  all_goals first
    | exact syncCompanion_eq ..
    | rfl

/-- The `_sync_all_companions` fold writes only `current_humidity` and
`companion_values` (existential form, convenient for rewriting). -/
lemma foldl_companionStep_ex (states : String → Option EntityState) :
    ∀ (l : List CompanionKey) (a : Adapter), ∃ c v,
      l.foldl (companionStep states) a =
        { a with current_humidity := c, companion_values := v } := by
  intro l
  induction l with
  | nil => exact fun a => ⟨a.current_humidity, a.companion_values, rfl⟩
  | cons k rest ih =>
    intro a
    obtain ⟨c, v, h⟩ := ih (companionStep states a k)
    refine ⟨c, v, ?_⟩
    calc (k :: rest).foldl (companionStep states) a
        = rest.foldl (companionStep states) (companionStep states a k) := rfl
      _ = { companionStep states a k with current_humidity := c, companion_values := v } := h
      _ = { a with current_humidity := c, companion_values := v } := by
            rw [companionStep_eq states a k]

/-- The function `syncAllCompanions` writes only `current_humidity` and
`companion_values`. -/
lemma syncAllCompanions_eq (states : String → Option EntityState) (a : Adapter) :
    syncAllCompanions states a =
      { a with current_humidity := (syncAllCompanions states a).current_humidity,
               companion_values := (syncAllCompanions states a).companion_values } := by
  obtain ⟨c, v, h⟩ := foldl_companionStep_ex states ALL_COMPANION_KEYS a
  unfold syncAllCompanions
  rw [h]

-- ── Case lemmas for _sync_from_climate ────────────────────────────────

/-- A missing or unknown/unavailable climate state: only `available` is
written, everything else keeps its previous value. -/
lemma syncFromClimate_invalid_eq (st : Option EntityState) (a : Adapter)
    (h : st = none ∨ ∃ s, st = some s ∧
      (s.state = STATE_UNKNOWN ∨ s.state = STATE_UNAVAILABLE)) :
    syncFromClimate st a = { a with available := false } := by
  rcases h with h | ⟨s, rfl, hs⟩
  · subst h; rfl
  · show (if s.state = STATE_UNKNOWN ∨ s.state = STATE_UNAVAILABLE then
        ({ a with available := false } : Adapter)
      else syncMode s (syncCurrentFallback s (syncTarget s
        { a with available := true, is_on := s.state != STATE_OFF }))) =
      { a with available := false }
    rw [if_pos hs]

/-- A valid climate state: the sync is the three attribute blocks run on
the record marked available and on/off. -/
lemma syncFromClimate_valid_eq (s : EntityState) (a : Adapter)
    (h1 : s.state ≠ STATE_UNKNOWN) (h2 : s.state ≠ STATE_UNAVAILABLE) :
    syncFromClimate (some s) a =
      syncMode s (syncCurrentFallback s (syncTarget s
        { a with available := true, is_on := s.state != STATE_OFF })) := by
  show (if s.state = STATE_UNKNOWN ∨ s.state = STATE_UNAVAILABLE then
      ({ a with available := false } : Adapter)
    else syncMode s (syncCurrentFallback s (syncTarget s
      { a with available := true, is_on := s.state != STATE_OFF }))) =
    syncMode s (syncCurrentFallback s (syncTarget s
      { a with available := true, is_on := s.state != STATE_OFF }))
  rw [if_neg]
  rintro (h | h)
  · exact h1 h
  · exact h2 h

-- ── Behaviour lemmas ───────────────────────────────────────────────────

/-- A missing `temperature` attribute, or one whose coercion raises, is
a no-op for the target block. -/
lemma syncTarget_skip (s : EntityState) (a : Adapter)
    (h : s.attributes.temperature = none ∨
      ∃ raw, s.attributes.temperature = some raw ∧ pyFloat? raw = none) :
    syncTarget s a = a := by
  rcases h with h | ⟨raw, h, hq⟩
  · simp only [syncTarget, h]
  · simp only [syncTarget, h, hq]

/-- A successful `int(float(raw))` stores the truncated value. -/
lemma syncTarget_upd (s : EntityState) (a : Adapter) (raw : PyVal) (q : Rat)
    (h : s.attributes.temperature = some raw) (hq : pyFloat? raw = some q) :
    syncTarget s a = { a with target_humidity := some (pyTrunc q) } := by
  simp only [syncTarget, h, hq]

/-- The mode block either keeps the stored mode or stores a member of
`available_modes`. -/
lemma syncMode_mode_cases (s : EntityState) (a : Adapter) :
    (syncMode s a).mode = a.mode ∨
      ∃ ms p, a.available_modes = some ms ∧ p ∈ ms ∧ (syncMode s a).mode = some p := by
  unfold syncMode
  repeat' split
  all_goals try (left; rfl)
  right
  exact ⟨_, _, by assumption, by assumption, rfl⟩

/-- A valid sync recomputes `is_on` as `state != "off"`. -/
lemma syncFromClimate_valid_is_on (s : EntityState) (a : Adapter)
    (h1 : s.state ≠ STATE_UNKNOWN) (h2 : s.state ≠ STATE_UNAVAILABLE) :
    (syncFromClimate (some s) a).is_on = (s.state != STATE_OFF) := by
  rw [syncFromClimate_valid_eq s a h1 h2, syncMode_eq, syncCurrentFallback_eq,
    syncTarget_eq]

/-- A valid sync marks the adapter available. -/
lemma syncFromClimate_valid_available (s : EntityState) (a : Adapter)
    (h1 : s.state ≠ STATE_UNKNOWN) (h2 : s.state ≠ STATE_UNAVAILABLE) :
    (syncFromClimate (some s) a).available = true := by
  rw [syncFromClimate_valid_eq s a h1 h2, syncMode_eq, syncCurrentFallback_eq,
    syncTarget_eq]

/-- On a valid sync the resulting target humidity is the target block's
result. -/
lemma syncFromClimate_valid_target (s : EntityState) (a : Adapter)
    (h1 : s.state ≠ STATE_UNKNOWN) (h2 : s.state ≠ STATE_UNAVAILABLE) :
    (syncFromClimate (some s) a).target_humidity =
      (syncTarget s { a with available := true, is_on := s.state != STATE_OFF }).target_humidity := by
  rw [syncFromClimate_valid_eq s a h1 h2, syncMode_eq, syncCurrentFallback_eq]

/-- No sync path ever rewrites the configured/derived mode list. -/
lemma syncFromClimate_avail_modes (st : Option EntityState) (a : Adapter) :
    (syncFromClimate st a).available_modes = a.available_modes := by
  cases st with
  | none => rfl
  | some s =>
    by_cases hv : s.state = STATE_UNKNOWN ∨ s.state = STATE_UNAVAILABLE
    · rw [syncFromClimate_invalid_eq _ _ (Or.inr ⟨s, rfl, hv⟩)]
    · push_neg at hv
      rw [syncFromClimate_valid_eq s a hv.1 hv.2, syncMode_eq, syncCurrentFallback_eq,
        syncTarget_eq]

/-- The sync `_sync_from_climate` never writes `min_humidity`. -/
lemma syncFromClimate_min (st : Option EntityState) (a : Adapter) :
    (syncFromClimate st a).min_humidity = a.min_humidity := by
  cases st with
  | none => rfl
  | some s =>
    by_cases hv : s.state = STATE_UNKNOWN ∨ s.state = STATE_UNAVAILABLE
    · rw [syncFromClimate_invalid_eq _ _ (Or.inr ⟨s, rfl, hv⟩)]
    · push_neg at hv
      rw [syncFromClimate_valid_eq s a hv.1 hv.2, syncMode_eq, syncCurrentFallback_eq,
        syncTarget_eq]

/-- The sync `_sync_from_climate` never writes `max_humidity`. -/
lemma syncFromClimate_max (st : Option EntityState) (a : Adapter) :
    (syncFromClimate st a).max_humidity = a.max_humidity := by
  cases st with
  | none => rfl
  | some s =>
    by_cases hv : s.state = STATE_UNKNOWN ∨ s.state = STATE_UNAVAILABLE
    · rw [syncFromClimate_invalid_eq _ _ (Or.inr ⟨s, rfl, hv⟩)]
    · push_neg at hv
      rw [syncFromClimate_valid_eq s a hv.1 hv.2, syncMode_eq, syncCurrentFallback_eq,
        syncTarget_eq]

/-- The sync `_sync_companion` never writes `min_humidity`. -/
lemma syncCompanion_min (eid : String) (s : EntityState) (a : Adapter) :
    (syncCompanion eid s a).min_humidity = a.min_humidity := by
  rw [syncCompanion_eq]

/-- The sync `_sync_companion` never writes `max_humidity`. -/
lemma syncCompanion_max (eid : String) (s : EntityState) (a : Adapter) :
    (syncCompanion eid s a).max_humidity = a.max_humidity := by
  rw [syncCompanion_eq]

/-- The sync `_sync_companion` never writes the mode list. -/
lemma syncCompanion_avail_modes (eid : String) (s : EntityState) (a : Adapter) :
    (syncCompanion eid s a).available_modes = a.available_modes := by
  rw [syncCompanion_eq]

/-- The sync `_sync_companion` never writes the active mode. -/
lemma syncCompanion_mode (eid : String) (s : EntityState) (a : Adapter) :
    (syncCompanion eid s a).mode = a.mode := by
  rw [syncCompanion_eq]

/-- The sync `_sync_all_companions` never writes `is_on`. -/
lemma syncAllCompanions_is_on (states : String → Option EntityState) (a : Adapter) :
    (syncAllCompanions states a).is_on = a.is_on := by
  rw [syncAllCompanions_eq]

-- ── Claim theorems ─────────────────────────────────────────────────────

/-- C9: when a read of the source entity's state yields missing,
"unknown", or "unavailable", the sync sets availability to false and
leaves every other derived field (on/off, target humidity, current
humidity, mode, companion values) unchanged. -/
theorem C9_unavailable_frame (st : Option EntityState) (a : Adapter)
    (h : st = none ∨ ∃ s, st = some s ∧
      (s.state = STATE_UNKNOWN ∨ s.state = STATE_UNAVAILABLE)) :
    syncFromClimate st a = { a with available := false } :=
  syncFromClimate_invalid_eq st a h

/-- Witness for C9 at the concrete state "unavailable". -/
theorem C9_unavailable_frame_witness :
    syncFromClimate (some { state := "unavailable" })
        (initAdapter { climate_entity := "climate.dehum" }) =
      { initAdapter { climate_entity := "climate.dehum" } with available := false } :=
  C9_unavailable_frame _ _ (Or.inr ⟨_, rfl, Or.inr rfl⟩)

/-- C8: for every valid (non-missing, non-unknown, non-unavailable)
source state, the synced on/off value is on iff the source entity's
state differs from "off". -/
theorem C8_on_iff_not_off (s : EntityState) (a : Adapter)
    (h1 : s.state ≠ STATE_UNKNOWN) (h2 : s.state ≠ STATE_UNAVAILABLE) :
    ((syncFromClimate (some s) a).is_on = true ↔ s.state ≠ STATE_OFF) := by
  rw [syncFromClimate_valid_is_on s a h1 h2]
  simp

/-- Witness for C8 at the concrete state "dry". -/
theorem C8_on_iff_not_off_witness :
    ("dry" : String) ≠ STATE_UNKNOWN ∧ ("dry" : String) ≠ STATE_UNAVAILABLE ∧
      ((syncFromClimate (some { state := "dry" })
          (initAdapter { climate_entity := "climate.dehum" })).is_on = true ↔
        ("dry" : String) ≠ STATE_OFF) :=
  ⟨by decide, by decide,
    C8_on_iff_not_off { state := "dry" } (initAdapter { climate_entity := "climate.dehum" })
      (by decide) (by decide)⟩

/-- C7: the stored target humidity is updated only when the designated
`temperature` attribute coerces to an integer; a missing or non-numeric
value leaves the previously stored target unchanged (never reset). -/
theorem C7_target_update :
    (∀ (st : Option EntityState) (a : Adapter),
        (syncFromClimate st a).target_humidity = a.target_humidity ∨
        ∃ s raw q, st = some s ∧ s.attributes.temperature = some raw ∧
          pyFloat? raw = some q ∧
          (syncFromClimate st a).target_humidity = some (pyTrunc q)) ∧
    (∀ (s : EntityState) (a : Adapter),
        (s.attributes.temperature = none ∨
          ∃ raw, s.attributes.temperature = some raw ∧ pyFloat? raw = none) →
        (syncFromClimate (some s) a).target_humidity = a.target_humidity) := by
  constructor
  · intro st a
    cases st with
    | none => left; rfl
    | some s =>
      by_cases hv : s.state = STATE_UNKNOWN ∨ s.state = STATE_UNAVAILABLE
      · left
        rw [syncFromClimate_invalid_eq _ _ (Or.inr ⟨s, rfl, hv⟩)]
      · push_neg at hv
        rcases hT : s.attributes.temperature with _ | raw
        · left
          rw [syncFromClimate_valid_target s a hv.1 hv.2,
            syncTarget_skip _ _ (Or.inl hT)]
        · rcases hq : pyFloat? raw with _ | q
          · left
            rw [syncFromClimate_valid_target s a hv.1 hv.2,
              syncTarget_skip _ _ (Or.inr ⟨raw, hT, hq⟩)]
          · right
            refine ⟨s, raw, q, rfl, hT, hq, ?_⟩
            rw [syncFromClimate_valid_target s a hv.1 hv.2,
              syncTarget_upd _ _ raw q hT hq]
  · intro s a h
    by_cases hv : s.state = STATE_UNKNOWN ∨ s.state = STATE_UNAVAILABLE
    · rw [syncFromClimate_invalid_eq _ _ (Or.inr ⟨s, rfl, hv⟩)]
    · push_neg at hv
      rw [syncFromClimate_valid_target s a hv.1 hv.2, syncTarget_skip _ _ h]

/-- Witness for C7: the non-numeric string "abc" leaves the stored
target humidity untouched. -/
theorem C7_target_update_witness :
    (syncFromClimate
        (some { state := "dry",
                attributes := { temperature := some (.pstr "abc" none) } })
        (initAdapter { climate_entity := "climate.dehum" })).target_humidity =
      (initAdapter { climate_entity := "climate.dehum" }).target_humidity :=
  C7_target_update.2 _ _ (Or.inr ⟨_, rfl, rfl⟩)

/-- C1 fails as stated: on the scenario's attributes
(`humidity`/`current_humidity`) this code stores neither the target nor
the current humidity, because `_sync_from_climate` reads the
`temperature`/`current_temperature` pair. -/
theorem C1_counterexample :
    (syncFromClimate (some c1ClaimState) (initAdapter c1Config)).target_humidity ≠ some 45 ∧
    (syncFromClimate (some c1ClaimState) (initAdapter c1Config)).current_humidity ≠ some 55 ∧
    (syncFromClimate (some c1ClaimState) (initAdapter c1Config)).target_humidity = none ∧
    (syncFromClimate (some c1ClaimState) (initAdapter c1Config)).current_humidity = none := by
  decide

/-- C1 amended: the same scenario with the values carried on the
attributes this code designates (`temperature=45`,
`current_temperature=55`) yields is_on=true, target 45, current 55.0,
mode "auto". -/
theorem C1_amended_scenario :
    (syncFromClimate (some c1AmendedState) (initAdapter c1Config)).is_on = true ∧
    (syncFromClimate (some c1AmendedState) (initAdapter c1Config)).target_humidity = some 45 ∧
    (syncFromClimate (some c1AmendedState) (initAdapter c1Config)).current_humidity = some 55 ∧
    (syncFromClimate (some c1AmendedState) (initAdapter c1Config)).mode = some "auto" := by
  decide

/-- C2 fails as stated: with no explicit mode list configured, a sync
against a source advertising the live list `["auto"]` leaves the
enforced mode list `none` (mode support disabled) instead of mirroring
the live list, and the advertised preset "auto" is never stored. -/
theorem C2_counterexample :
    c2State.attributes.preset_modes = some ["auto"] ∧
    (syncFromClimate (some c2State) (initAdapter c2Config)).available_modes ≠ some ["auto"] ∧
    (syncFromClimate (some c2State) (initAdapter c2Config)).available_modes = none ∧
    (syncFromClimate (some c2State) (initAdapter c2Config)).mode = none := by
  decide

/-- C2 amended: the enforced mode list is the explicitly configured list
when non-empty and is never rewritten by a sync; when no explicit list
is configured it stays `none` (the live advertised list is not
mirrored); and a stored mode is always either the previous one or a
member of the enforced list. -/
theorem C2_amended_modes :
    (∀ (cfg : Config) (ms : List String), cfg.modes = some ms → ms ≠ [] →
        (initAdapter cfg).available_modes = some ms) ∧
    (∀ cfg : Config, cfg.modes = none → (initAdapter cfg).available_modes = none) ∧
    (∀ (st : Option EntityState) (a : Adapter),
        (syncFromClimate st a).available_modes = a.available_modes) ∧
    (∀ (st : Option EntityState) (a : Adapter),
        (syncFromClimate st a).mode = a.mode ∨
        ∃ ms p, a.available_modes = some ms ∧ p ∈ ms ∧
          (syncFromClimate st a).mode = some p) := by
  refine ⟨?_, ?_, syncFromClimate_avail_modes, ?_⟩
  · intro cfg ms h hne
    simp [initAdapter, h, hne]
  · intro cfg h
    simp [initAdapter, h]
  · intro st a
    cases st with
    | none => left; rfl
    | some s =>
      by_cases hv : s.state = STATE_UNKNOWN ∨ s.state = STATE_UNAVAILABLE
      · left
        rw [syncFromClimate_invalid_eq _ _ (Or.inr ⟨s, rfl, hv⟩)]
      · push_neg at hv
        rw [syncFromClimate_valid_eq s a hv.1 hv.2]
        rcases syncMode_mode_cases s
            (syncCurrentFallback s (syncTarget s
              { a with available := true, is_on := s.state != STATE_OFF }))
          with h | ⟨ms, p, hm, hp, he⟩
        · left
          rw [h, syncCurrentFallback_eq, syncTarget_eq]
        · right
          refine ⟨ms, p, ?_, hp, he⟩
          rw [syncCurrentFallback_eq, syncTarget_eq] at hm
          exact hm

/-- Witness for C2 at a concrete explicit mode list. -/
theorem C2_amended_modes_witness :
    (initAdapter c1Config).available_modes = some ["auto", "dry"] ∧
    (initAdapter c2Config).available_modes = none :=
  ⟨C2_amended_modes.1 c1Config ["auto", "dry"] rfl (by decide),
   C2_amended_modes.2.1 c2Config rfl⟩

/-- C3 fails as stated: with min/max not configured, a sync against a
source advertising a live range 20..70 leaves the defaults 30/80; the
live range is never tracked. -/
theorem C3_counterexample :
    c3State.attributes.min_humidity = some (.pnum 20) ∧
    (syncFromClimate (some c3State) (initAdapter c3Config)).min_humidity = 30 ∧
    (syncFromClimate (some c3State) (initAdapter c3Config)).max_humidity = 80 ∧
    (30 : Int) ≠ 20 := by
  decide

/-- C3 amended: min/max are fixed at construction — the explicit
configuration when present, otherwise the defaults 30/80 — and no sync
(from the source entity or a companion) ever rewrites them; the source
entity's live advertised range is never consulted. -/
theorem C3_amended_min_max :
    (∀ cfg : Config,
        (initAdapter cfg).min_humidity = cfg.min_humidity.getD DEFAULT_MIN_HUMIDITY ∧
        (initAdapter cfg).max_humidity = cfg.max_humidity.getD DEFAULT_MAX_HUMIDITY) ∧
    (∀ (st : Option EntityState) (a : Adapter),
        (syncFromClimate st a).min_humidity = a.min_humidity ∧
        (syncFromClimate st a).max_humidity = a.max_humidity) ∧
    (∀ (eid : String) (s : EntityState) (a : Adapter),
        (syncCompanion eid s a).min_humidity = a.min_humidity ∧
        (syncCompanion eid s a).max_humidity = a.max_humidity) :=
  ⟨fun _ => ⟨rfl, rfl⟩,
   fun st a => ⟨syncFromClimate_min st a, syncFromClimate_max st a⟩,
   fun eid s a => ⟨syncCompanion_min eid s a, syncCompanion_max eid s a⟩⟩

/-- C4 fails as stated: on restart with restored state "on" and a valid
source state "off", the startup sync runs after the restore and
recomputes on/off from the source, so the adapter ends up off — the
restored value does not override the value computed from the source. -/
theorem C4_counterexample :
    (addedToHass (some "on") (some { state := "off" }) (fun _ => none)
        (initAdapter c2Config)).is_on = false ∧
    ("on" : String) ≠ STATE_OFF := by
  decide

/-- C4 amended: the restored on/off value (when the last state is
neither unknown nor unavailable) survives startup only while the source
entity itself is missing/unknown/unavailable; whenever the source state
is valid at startup, the startup sync recomputes on/off from the source
regardless of the restored value. -/
theorem C4_amended_restore :
    (∀ (a : Adapter) (l : String) (st : Option EntityState)
        (states : String → Option EntityState),
        l ≠ STATE_UNKNOWN → l ≠ STATE_UNAVAILABLE →
        (st = none ∨ ∃ s, st = some s ∧
          (s.state = STATE_UNKNOWN ∨ s.state = STATE_UNAVAILABLE)) →
        (addedToHass (some l) st states a).is_on = (l != STATE_OFF)) ∧
    (∀ (a : Adapter) (ls : Option String) (s : EntityState)
        (states : String → Option EntityState),
        s.state ≠ STATE_UNKNOWN → s.state ≠ STATE_UNAVAILABLE →
        (addedToHass ls (some s) states a).is_on = (s.state != STATE_OFF)) := by
  constructor
  · intro a l st states h1 h2 hinv
    simp only [addedToHass]
    rw [syncAllCompanions_is_on, syncFromClimate_invalid_eq _ _ hinv,
      if_pos (⟨h1, h2⟩ : l ≠ STATE_UNKNOWN ∧ l ≠ STATE_UNAVAILABLE)]
  · intro a ls s states h1 h2
    simp only [addedToHass]
    rw [syncAllCompanions_is_on, syncFromClimate_valid_is_on s _ h1 h2]

/-- Witness for C4: restored "on" persists when the source is absent;
restored "on" is overridden to off when the source reads "off". -/
theorem C4_amended_restore_witness :
    ("on" : String) ≠ STATE_UNKNOWN ∧
    (addedToHass (some "on") none (fun _ => none)
        (initAdapter c2Config)).is_on = ("on" != STATE_OFF) ∧
    (addedToHass (some "on") (some { state := "off" }) (fun _ => none)
        (initAdapter c2Config)).is_on = ("off" != STATE_OFF) :=
  ⟨by decide,
   C4_amended_restore.1 (initAdapter c2Config) "on" none (fun _ => none)
     (by decide) (by decide) (Or.inl rfl),
   C4_amended_restore.2 (initAdapter c2Config) (some "on") { state := "off" }
     (fun _ => none) (by decide) (by decide)⟩

/-- C5 fails as stated: with no explicit mode list configured, a mode
outside the effective list of the spec (here the source's live list
`["auto"]`) is not rejected — the service call is still issued. -/
theorem C5_counterexample :
    "bogus" ∉ specEffectiveModes (initAdapter c2Config).available_modes ["auto"] ∧
    setMode (initAdapter c2Config) "bogus" =
      some { domain := "climate", service := "set_preset_mode",
             entity_id := "climate.dehum", data := "bogus" } := by
  decide

/-- C5 amended: the membership check applies only to an explicitly
configured (non-empty) mode list — a mode outside it is rejected
locally with no service call, a member produces exactly one
`set_preset_mode` call; with no explicit list configured every mode is
forwarded unchecked as one call. -/
theorem C5_amended_set_mode :
    (∀ (a : Adapter) (ms : List String) (mode : String),
        a.available_modes = some ms → ms ≠ [] → mode ∉ ms →
        setMode a mode = none) ∧
    (∀ (a : Adapter) (ms : List String) (mode : String),
        a.available_modes = some ms → mode ∈ ms →
        setMode a mode =
          some { domain := "climate", service := "set_preset_mode",
                 entity_id := a.climate_entity_id, data := mode }) ∧
    (∀ (a : Adapter) (mode : String), a.available_modes = none →
        setMode a mode =
          some { domain := "climate", service := "set_preset_mode",
                 entity_id := a.climate_entity_id, data := mode }) := by
  refine ⟨?_, ?_, ?_⟩
  · intro a ms mode h hne hnm
    unfold setMode
    rw [h, if_pos]
    exact ⟨by simp [pyTruthyList, hne], by simpa using hnm⟩
  · intro a ms mode h hm
    unfold setMode
    rw [h, if_neg]
    rintro ⟨-, hn⟩
    exact hn (by simpa using hm)
  · intro a mode h
    unfold setMode
    rw [h, if_neg]
    rintro ⟨ht, -⟩
    simp [pyTruthyList] at ht

/-- Witness for C5 on all three branches. -/
theorem C5_amended_set_mode_witness :
    setMode (initAdapter c1Config) "bogus" = none ∧
    setMode (initAdapter c1Config) "auto" =
      some { domain := "climate", service := "set_preset_mode",
             entity_id := "climate.dehum", data := "auto" } ∧
    setMode (initAdapter c2Config) "anything" =
      some { domain := "climate", service := "set_preset_mode",
             entity_id := "climate.dehum", data := "anything" } :=
  ⟨C5_amended_set_mode.1 (initAdapter c1Config) ["auto", "dry"] "bogus" rfl
     (by decide) (by decide),
   C5_amended_set_mode.2.1 (initAdapter c1Config) ["auto", "dry"] "auto" rfl
     (by decide),
   C5_amended_set_mode.2.2 (initAdapter c2Config) "anything" rfl⟩

/-- C6: the claim matches the code's own documentation ("preferred"
source for the current humidity), but the configured companion sensor
can never supply the value: `COMPANION_ATTR_MAP` has no entry for the
current-humidity key, so `_sync_companion` skips that key via
`continue` and the dedicated `float(state.state)` branch is
unreachable.  With the companion configured the climate fallback is
also skipped, so a sensor reading of "61" leaves the current humidity
at its previous value (`none`) instead of 61.0. -/
theorem C6_companion_dead_branch :
    COMPANION_ATTR_MAP .current_humidity_entity = none ∧
    (initAdapter c6Config).companion .current_humidity_entity = some "sensor.cur" ∧
    (syncCompanion "sensor.cur" c6SensorState (initAdapter c6Config)).current_humidity
      = none ∧
    (syncCompanion "sensor.cur" c6SensorState
        (initAdapter c6Config)).companion_values = [] ∧
    (syncFromClimate (some c6ClimateState) (initAdapter c6Config)).current_humidity
      = none := by
  decide

-- ── Listener lemmas for the fan-mode select setup ──────────────────────

/-- After `cancel()` the listener receives nothing: the fold is inert
from an unsubscribed state. -/
lemma stepListener_unsub (cid : String) :
    ∀ (events : List BusEvent) (c : List (List String)),
      events.foldl (stepListener cid) ⟨false, c⟩ = ⟨false, c⟩ := by
  intro events
  induction events with
  | nil => intro c; rfl
  | cons e rest ih => intro c; exact ih c

/-- A qualifying event creates the mirror entity and cancels the
subscription. -/
lemma stepListener_pos (cid : String) (c : List (List String)) (e : BusEvent)
    (hq : qualifying cid e = true) :
    stepListener cid ⟨true, c⟩ e = ⟨false, c ++ [eventModes e]⟩ := by
  unfold qualifying at hq
  rw [Bool.and_eq_true] at hq
  obtain ⟨h1, h2⟩ := hq
  rw [decide_eq_true_eq] at h1
  unfold stepListener
  rw [if_neg (by simp), if_pos h1]
  cases hs : e.new_state with
  | none => rw [hs] at h2; simp at h2
  | some s =>
    rw [hs] at h2
    simp only [Bool.and_eq_true, Bool.not_eq_eq_eq_not, Bool.not_true,
      Bool.or_eq_false_iff, beq_eq_false_iff_ne, bne_iff_ne] at h2
    obtain ⟨⟨hv1, hv2⟩, hm⟩ := h2
    simp only [onClimateFirstState, eventModes, hs]
    rw [if_neg (by rintro (h | h); exacts [hv1 h, hv2 h]), if_pos hm]

/-- A non-qualifying event leaves the listener state unchanged. -/
lemma stepListener_neg (cid : String) (c : List (List String)) (e : BusEvent)
    (hq : qualifying cid e = false) :
    stepListener cid ⟨true, c⟩ e = ⟨true, c⟩ := by
  unfold stepListener
  rw [if_neg (by simp)]
  by_cases h1 : e.entity_id = some cid
  · rw [if_pos h1]
    unfold qualifying at hq
    rw [h1] at hq
    simp only [decide_True, Bool.true_and] at hq
    unfold onClimateFirstState
    cases hs : e.new_state with
    | none => rfl
    | some s =>
      rw [hs] at hq
      simp only [Bool.and_eq_false_iff, Bool.not_eq_false', Bool.or_eq_true,
        beq_iff_eq, bne_eq_false_iff_eq] at hq
      simp only [onClimateFirstState, hs]
      by_cases hv : s.state = STATE_UNKNOWN ∨ s.state = STATE_UNAVAILABLE
      · rw [if_pos hv]
      · rw [if_neg hv]
        rcases hq with hq | hq
        · exact absurd hq hv
        · rw [if_neg (by simpa using hq)]
  · rw [if_neg h1]

/-- The listener fold from its initial state: nothing happens until the
first qualifying event, which appends exactly one created entity and
unsubscribes; everything after it is ignored. -/
lemma runListener_aux (cid : String) :
    ∀ (events : List BusEvent) (c : List (List String)),
      events.foldl (stepListener cid) ⟨true, c⟩ =
        match events.find? (qualifying cid) with
        | none => ⟨true, c⟩
        | some e => ⟨false, c ++ [eventModes e]⟩ := by
  intro events
  induction events with
  | nil => intro c; rfl
  | cons e rest ih =>
    intro c
    by_cases hq : qualifying cid e = true
    · rw [List.foldl_cons, List.find?_cons_of_pos _ hq, stepListener_pos cid c e hq]
      exact stepListener_unsub cid rest (c ++ [eventModes e])
    · rw [List.foldl_cons, List.find?_cons_of_neg _ hq,
        stepListener_neg cid c e (by simpa using hq)]
      exact ih c

/-- C10 fails as stated: the one-shot listener does not create the
mirror entity at the source entity's first valid state when that state
advertises no fan modes — nothing is created and the subscription stays
active. -/
theorem C10_counterexample :
    (∃ s, c10Event.new_state = some s ∧ s.state ≠ STATE_UNKNOWN ∧
      s.state ≠ STATE_UNAVAILABLE) ∧
    (runListener "climate.dehum" [c10Event]).created = [] ∧
    (runListener "climate.dehum" [c10Event]).subscribed = true := by
  refine ⟨⟨{ state := "dry" }, rfl, by decide, by decide⟩, by decide, by decide⟩

/-- C10 amended: when the source advertises no non-empty fan-mode list
at setup, no mirror entity is created at setup and the one-shot
listener is registered; the listener creates the mirror entity exactly
at the first event carrying a valid state with a non-empty fan-mode
list (skipping valid states without fan modes), unsubscribing at that
point, so it never creates more than one mirror entity. -/
theorem C10_amended_listener :
    (∀ st : Option EntityState, fanModesAtSetup st = [] → selectSetup st = (none, true)) ∧
    (∀ (cid : String) (events : List BusEvent),
        (runListener cid events).created =
          ((events.find? (qualifying cid)).map eventModes).toList ∧
        (runListener cid events).subscribed = (events.find? (qualifying cid)).isNone) ∧
    (∀ (cid : String) (events : List BusEvent),
        (runListener cid events).created.length ≤ 1) := by
  have hrun : ∀ (cid : String) (events : List BusEvent),
      (runListener cid events).created =
        ((events.find? (qualifying cid)).map eventModes).toList ∧
      (runListener cid events).subscribed = (events.find? (qualifying cid)).isNone := by
    intro cid events
    unfold runListener
    rw [runListener_aux cid events []]
    cases events.find? (qualifying cid) with
    | none => exact ⟨rfl, rfl⟩
    | some e => exact ⟨by simp, rfl⟩
  refine ⟨?_, hrun, ?_⟩
  · intro st h
    simp [selectSetup, h]
  · intro cid events
    rw [(hrun cid events).1]
    cases events.find? (qualifying cid) with
    | none => simp
    | some e => simp

/-- Witness for C10's setup conjunct at a missing source state. -/
theorem C10_amended_listener_witness :
    fanModesAtSetup none = [] ∧ selectSetup none = (none, true) :=
  ⟨rfl, C10_amended_listener.1 none rfl⟩

end Hki
